import Mathlib

/-!
Verification of the matrix_server_transfer migration script
(`src/migrate_server.py`) against its natural-language specification.

The Python source is shallowly embedded: pure logic becomes Lean functions,
network responses become explicit parameters (the sequence of responses a
server hands to successive calls), and Python's dynamic failures
(`AttributeError`, `TypeError`) become explicit error values in `Except`.
-/

namespace MigrateServer

/-- Python-level runtime errors that the embedded code can raise.
`attributeError` models accessing a missing attribute on an object;
`moduleNotCallable` models the `TypeError` raised by calling a module object
as if it were a function. -/
inductive PyErr where
  | attributeError
  | moduleNotCallable
deriving DecidableEq, Repr

/-- The concrete nio event classes that the script dispatches on with
`isinstance`.  `text`, `notice` and `emote` are the subclasses of
`nio.RoomMessageFormatted`; `media` stands for `nio.RoomMessageMedia` (and its
subclasses), `encryptedMedia` for `nio.RoomEncryptedMedia`, `redacted` for
`nio.RedactedEvent`.  `membership`, `reaction` and `stateEvent` are examples of
the remaining protocol event types; `other` covers the rest. -/
inductive EventType where
  | text
  | notice
  | emote
  | media
  | encryptedMedia
  | redacted
  | membership
  | reaction
  | stateEvent
  | other
deriving DecidableEq, Repr

/-- `isinstance(event, nio.RoomMessageFormatted)`: true for the whole
formatted-message family (plain text, notices, emotes). -/
def isRoomMessageFormatted : EventType → Bool
  | .text | .notice | .emote => true
  | _ => false

/-- `isinstance(event, nio.RoomMessageText)`: true only for plain text
messages, a strict subclass of `nio.RoomMessageFormatted`. -/
def isRoomMessageText : EventType → Bool
  | .text => true
  | _ => false

/-- `isinstance(event, nio.RoomMessageMedia)`. -/
def isRoomMessageMedia : EventType → Bool
  | .media => true
  | _ => false

/-- `isinstance(event, nio.RoomEncryptedMedia)`. -/
def isRoomEncryptedMedia : EventType → Bool
  | .encryptedMedia => true
  | _ => false

/-- `isinstance(event, nio.RedactedEvent)`. -/
def isRedactedEvent : EventType → Bool
  | .redacted => true
  | _ => false

/-- A room timeline event as used by the script: its nio class (`ty`), the
protocol event identifier, the text body, the media content URI, and
`event.source['content']['msgtype']`. -/
structure Event where
  ty : EventType
  id : Nat
  body : String
  url : String
  msgtype : String
deriving DecidableEq, Repr

/-- The event filter applied inside `Matrix_Server.fetch_room_events`
(src/migrate_server.py line 206): `isinstance(event, (nio.RoomMessageFormatted,
nio.RedactedEvent, nio.RoomMessageMedia, nio.RoomEncryptedMedia))`. -/
def keepFetch (e : Event) : Bool :=
  isRoomMessageFormatted e.ty || isRedactedEvent e.ty ||
    isRoomMessageMedia e.ty || isRoomEncryptedMedia e.ty

/-- The event filter applied inside `Matrix_Server.send_events`
(src/migrate_server.py line 281): `isinstance(event, (nio.RoomMessageText,
nio.RoomMessageMedia, nio.RoomEncryptedMedia))`. -/
def keepSend (e : Event) : Bool :=
  isRoomMessageText e.ty || isRoomMessageMedia e.ty || isRoomEncryptedMedia e.ty

/-- One response of `client.room_messages`: either a successful page
(`resp.chunk`, `resp.end`) or a `nio.RoomMessagesError`. -/
inductive PageResp where
  | page (chunk : List Event) (endTok : String)
  | error (msg : String)
deriving DecidableEq, Repr

/-- Reading `resp.chunk` and `resp.end` on a `room_messages` response.
A `nio.RoomMessagesError` carries no `chunk` field, so the attribute access
performed unconditionally at src/migrate_server.py line 203 raises
`AttributeError` on an error response. -/
def chunkOf : PageResp → Except PyErr (List Event × String)
  | .page c t => .ok (c, t)
  | .error _ => .error .attributeError

/-- The `while True` pagination loop of `Matrix_Server.fetch_room_events`
(src/migrate_server.py lines 195-213), with the server modelled as the list of
responses it returns to successive `room_messages` calls.  Per iteration: the
response's `chunk` is read (raising on an error response); an empty chunk
breaks the loop; otherwise the chunk is filtered by `keepFetch` and appended
to the accumulator and the loop continues with the next response.  An
exhausted response list also ends the loop (a well-formed server run always
ends with an empty page). -/
def fetch_room_events (resps : List PageResp) (events : List Event) :
    Except PyErr (List Event) :=
  match resps with
  | [] => .ok events
  | r :: rest =>
    match chunkOf r with
    | .error e => .error e
    | .ok (chunk, _) =>
      if chunk.length = 0 then .ok events
      else fetch_room_events rest (events ++ chunk.filter keepFetch)

/-- The responses a well-behaved server gives when paginating a run of events
`l`: pages of up to 1000 events in order, terminated by an empty page.  This
is what `room_messages` produces when repeatedly called with `limit=1000` and
the previous response's `end` token. -/
def pagesOf (l : List Event) : List PageResp :=
  if h : l = [] then [.page [] "end"]
  else .page (l.take 1000) "next" :: pagesOf (l.drop 1000)
termination_by l.length
decreasing_by
  simp only [List.length_drop]
  have : 0 < l.length := List.length_pos.mpr h
  omega

/-- `Matrix_Server.get_room_events` (src/migrate_server.py lines 215-224):
sync for an anchor token, fetch the backward run from the anchor, reverse it
in place, then fetch the forward run from the same anchor and append it.
The room's true chronological timeline is `tl`; the anchor obtained from the
1-event-limit sync splits it at position `k`: backward pagination yields the
events before the anchor newest-first (`(tl.take k).reverse`), forward
pagination yields the events from the anchor on, oldest-first (`tl.drop k`). -/
def get_room_events (tl : List Event) (k : Nat) : Except PyErr (List Event) :=
  match fetch_room_events (pagesOf ((tl.take k).reverse)) [] with
  | .error e => .error e
  | .ok back =>
    match fetch_room_events (pagesOf (tl.drop k)) [] with
    | .error e => .error e
    | .ok front => .ok (back.reverse ++ front)

/-- The events that `Matrix_Server.send_events` (src/migrate_server.py lines
278-285) actually hands to `post_event`: those passing the `keepSend`
isinstance filter, in timeline order. -/
def send_events_posted (events : List Event) : List Event :=
  events.filter keepSend

/-- The event-type taxonomy of the claim: an event type counted as retained by
the specification, where "text" is the spec's text tag covering the
formatted-message family. -/
def claimRetainedType : EventType → Bool
  | .text | .notice | .emote | .media | .redacted | .encryptedMedia => true
  | _ => false

-- Pagination loop lemma: paging over a run `l` returns exactly the
-- `keepFetch`-filtered run appended to the accumulator.

theorem fetch_room_events_pagesOf (l : List Event) (acc : List Event) :
    fetch_room_events (pagesOf l) acc = .ok (acc ++ l.filter keepFetch) := by
  induction l using pagesOf.induct generalizing acc with
  | case1 =>
    simp [pagesOf, fetch_room_events, chunkOf]
  | case2 l h ih =>
    rw [pagesOf]
    simp only [h, dite_false]
    rw [fetch_room_events]
    simp only [chunkOf]
    have htake : (l.take 1000).length ≠ 0 := by
      simp only [List.length_take]
      have : 0 < l.length := List.length_pos.mpr h
      omega
    simp only [htake, if_false]
    rw [ih]
    rw [List.append_assoc, ← List.filter_append, List.take_append_drop]

/-- A joined room as cached by the script: protocol identifier, display name,
topic and room version. -/
structure Room where
  room_id : Nat
  display_name : String
  topic : String
  room_version : String
deriving DecidableEq, Repr

/-- The mutable per-session catalog held by `Matrix_Server`: `self.rooms`
(the client's joined-room map, in insertion order) and `self.room_names`
(the display names of known rooms, appended at login and after each
creation). -/
structure CatalogState where
  rooms : List Room
  room_names : List String
deriving DecidableEq, Repr

/-- `Matrix_Server.get_room` (src/migrate_server.py lines 226-232): if the
display name is among the cached names, return the first cached room with
that display name; otherwise return `None`. -/
def get_room (st : CatalogState) (display_name : String) : Option Room :=
  if display_name ∈ st.room_names then
    st.rooms.find? (fun r => r.display_name = display_name)
  else none

/-- `Matrix_Server.create_room` (src/migrate_server.py lines 176-193) on the
success path: the server creates a room with the requested name and the old
room's topic and version (`newId` is the identifier the server assigns, which
the following sync makes visible at the end of the cached room map), the
cached room map is refreshed, the name is appended to `self.room_names`, and
`self.get_room(room_name)` is returned. -/
def create_room (st : CatalogState) (old_topic old_version : String)
    (newId : Nat) (room_name : String) : Option Room × CatalogState :=
  let created : Room := ⟨newId, room_name, old_topic, old_version⟩
  let st2 : CatalogState :=
    ⟨st.rooms ++ [created], st.room_names ++ [room_name]⟩
  (get_room st2 room_name, st2)

/-- The per-room destination-resolution step of `main` (src/migrate_server.py
lines 311-314): `if room_name not in new.get_room_names(): create_room else
get_room`.  The Boolean records whether this step created a room. -/
def resolve_room (st : CatalogState) (old_topic old_version : String)
    (newId : Nat) (room_name : String) :
    Option Room × CatalogState × Bool :=
  if room_name ∈ st.room_names then (get_room st room_name, st, false)
  else
    let (r, st2) := create_room st old_topic old_version newId room_name
    (r, st2, true)

/-- The catalog invariant established by `Matrix_Server.login`
(src/migrate_server.py lines 150-152), which populates `self.room_names` with
exactly the display names of the cached rooms, and preserved by
`create_room`. -/
def CatalogInv (st : CatalogState) : Prop :=
  st.room_names = st.rooms.map Room.display_name

/-- A successful `client.download` response: the payload bytes, the filename
and the content type. -/
structure DownloadResponse where
  body : List Nat
  filename : String
  content_type : String
deriving DecidableEq, Repr

/-- The outcome of `client.download(mxc=url)`: either a response object
carrying a `body` attribute, or a failure response without one. -/
inductive DownloadOutcome where
  | ok (r : DownloadResponse)
  | failed
deriving DecidableEq, Repr

/-- The value returned by `download_mxc` (src/migrate_server.py lines
112-117): the response object itself when it has a `body` attribute, and the
empty bytes object `b''` otherwise. -/
inductive MxcValue where
  | resp (r : DownloadResponse)
  | emptyBytes
deriving DecidableEq, Repr

/-- `download_mxc` (src/migrate_server.py lines 112-117). -/
def download_mxc : DownloadOutcome → MxcValue
  | .ok r => .resp r
  | .failed => .emptyBytes

/-- Reading `.body`, `.filename` and `.content_type` on the value returned by
`download_mxc`, as `Matrix_Server.post_event` does at src/migrate_server.py
lines 244-246.  A Python `bytes` object has none of these attributes, so the
first access raises `AttributeError` when the download failed. -/
def mediaFields : MxcValue → Except PyErr DownloadResponse
  | .resp r => .ok r
  | .emptyBytes => .error .attributeError

/-- The arguments of the `client.upload` call issued by `post_event`
(src/migrate_server.py lines 248-249). -/
structure UploadCall where
  data : List Nat
  content_type : String
  filename : String
  filesize : Nat
deriving DecidableEq, Repr

/-- The `content` dictionary of the `m.room.message` that `post_event` sends
(src/migrate_server.py lines 254-268): body, optional `info.size`,
`info.mimetype` and `url` (media only), and the copied `msgtype`. -/
structure MsgContent where
  body : String
  size : Option Nat
  mimetype : Option String
  url : Option String
  msgtype : String
deriving DecidableEq, Repr

/-- The observable effect of one `post_event` call: the upload calls issued
and the message content sent. -/
structure PostedMessage where
  uploads : List UploadCall
  content : MsgContent
deriving DecidableEq, Repr

/-- `Matrix_Server.post_event` (src/migrate_server.py lines 240-276).  For a
media or encrypted-media event: download the payload from the old server,
read its body/filename/content type, upload the body with
`filesize=len(body)` and build a media content dict whose `info.size` is the
same `len(body)`; `uri` is the `content_uri` the destination upload returns.
For any other event: build a text content dict from the event body.  The
`msgtype` is copied from the source event in both cases. -/
def post_event (dl : DownloadOutcome) (uri : String) (e : Event) :
    Except PyErr PostedMessage :=
  if isRoomMessageMedia e.ty || isRoomEncryptedMedia e.ty then
    match mediaFields (download_mxc dl) with
    | .error err => .error err
    | .ok r =>
      let body_size := r.body.length
      .ok
        { uploads := [⟨r.body, r.content_type, r.filename, body_size⟩],
          content :=
            { body := r.filename, size := some body_size,
              mimetype := some r.content_type, url := some uri,
              msgtype := e.msgtype } }
  else
    .ok
      { uploads := [],
        content :=
          { body := e.body, size := none, mimetype := none, url := none,
            msgtype := e.msgtype } }

/-- A Python attribute slot as seen from inside a method: the class attribute
value and the instance's own attribute, if the instance dictionary holds
one. -/
structure PyAttr where
  classAttr : Nat
  instAttr : Option Nat
deriving DecidableEq, Repr

/-- Reading `self.device_cnt`: the instance attribute when present, falling
back to the class attribute `Matrix_Server.device_cnt`. -/
def readAttr (s : PyAttr) : Nat :=
  s.instAttr.getD s.classAttr

/-- `self.device_cnt += 1`: reads via instance-then-class lookup but always
writes into the instance dictionary, leaving the class attribute unchanged. -/
def augAssignAttr (s : PyAttr) : PyAttr :=
  { s with instAttr := some (readAttr s + 1) }

/-- `Matrix_Server.__init__` (src/migrate_server.py lines 119-128) restricted
to the device-identifier logic: given the current value of the class
attribute `Matrix_Server.device_cnt`, a fresh instance (whose instance
dictionary has no `device_cnt` entry) computes
`self.device = f'migrate_server_{self.device_cnt}'` and then performs
`self.device_cnt += 1`.  Returns the device string and the value of the class
attribute after construction. -/
def msInit (classCnt : Nat) : String × Nat :=
  let s0 : PyAttr := ⟨classCnt, none⟩
  let device := "migrate_server_" ++ toString (readAttr s0)
  let s1 := augAssignAttr s0
  (device, s1.classAttr)

/-- A `client.sync` response: success or a `nio.SyncError`. -/
inductive SyncResp where
  | ok (token : String)
  | error (msg : String)
deriving DecidableEq, Repr

/-- The error handling of `Matrix_Server.sync` (src/migrate_server.py lines
166-171): on a `nio.SyncError` the source executes
`logging(f'Error syncing: ...', False)`, calling the `logging` module object
itself, which raises `TypeError` because a module is not callable. -/
def sync_handle : SyncResp → Except PyErr Unit
  | .ok _ => .ok ()
  | .error _ => .error .moduleNotCallable

/-- A network request observable at the protocol level during shutdown. -/
inductive Action where
  | logoutRequest (server : String)
deriving DecidableEq, Repr

/-- Awaiting `Matrix_Server.logout` (src/migrate_server.py lines 158-164)
issues one logout request to the session's server (failure is only logged). -/
def logout_run (server : String) : List Action :=
  [.logoutRequest server]

/-- Evaluating `server.logout()` as an expression statement without `await`:
the coroutine object is created and immediately discarded, so none of the
coroutine's network actions are performed. -/
def call_without_await (_server : String) : List Action :=
  []

/-- The shutdown tail of `main` (src/migrate_server.py lines 319-320):
`new.logout()` followed by `old.logout()`, both written without `await`, so
both logout coroutines are discarded unexecuted. -/
def main_shutdown_actions (newServer oldServer : String) : List Action :=
  call_without_await newServer ++ call_without_await oldServer

-- Sample events used as concrete inputs in witness theorems.

/-- A plain text message (`nio.RoomMessageText`). -/
def evText : Event := ⟨.text, 1, "hello", "", "m.text"⟩

/-- A notice message (`nio.RoomMessageNotice`, a `RoomMessageFormatted` that
is not a `RoomMessageText`). -/
def evNotice : Event := ⟨.notice, 2, "server notice", "", "m.notice"⟩

/-- A media message (`nio.RoomMessageMedia`). -/
def evMedia : Event := ⟨.media, 3, "pic.png", "mxc://old/abc", "m.image"⟩

/-- A redacted event (`nio.RedactedEvent`). -/
def evRedacted : Event := ⟨.redacted, 4, "", "", ""⟩

/-- A membership state event (dropped by the fetch filter). -/
def evMembership : Event := ⟨.membership, 5, "", "", ""⟩

-- Helper lemmas shared by the claim theorems.

theorem keepFetch_eq_claimRetained (e : Event) :
    keepFetch e = claimRetainedType e.ty := by
  cases e with
  | mk ty id body url msgtype => cases ty <;> rfl

theorem get_room_events_eq (tl : List Event) (k : Nat) :
    get_room_events tl k = .ok (tl.filter keepFetch) := by
  unfold get_room_events
  rw [fetch_room_events_pagesOf, fetch_room_events_pagesOf]
  simp only [List.nil_append, List.filter_reverse, List.reverse_reverse]
  rw [← List.filter_append, List.take_append_drop]

/-- C1: `get_room_events` returns the reversed backward-paginated run
followed by the unreversed forward-paginated run, both taken from the same
anchor position `k`; the result equals the `keepFetch`-filtered timeline, so
when the timeline has no duplicate events each retained event occurs in the
result exactly once (in particular the event adjacent to the anchor is not
duplicated). -/
theorem get_room_events_partition (tl : List Event) (k : Nat)
    (hnd : tl.Nodup) :
    ∃ back front,
      fetch_room_events (pagesOf ((tl.take k).reverse)) [] = .ok back ∧
      fetch_room_events (pagesOf (tl.drop k)) [] = .ok front ∧
      get_room_events tl k = .ok (back.reverse ++ front) ∧
      back.reverse ++ front = tl.filter keepFetch ∧
      (∀ e, keepFetch e = true → e ∈ tl →
        (back.reverse ++ front).count e = 1) := by
  refine ⟨((tl.take k).reverse).filter keepFetch,
    (tl.drop k).filter keepFetch, ?_, ?_, ?_, ?_, ?_⟩
  · rw [fetch_room_events_pagesOf]
    simp
  · rw [fetch_room_events_pagesOf]
    simp
  · rw [get_room_events_eq]
    simp only [List.filter_reverse, List.reverse_reverse]
    rw [← List.filter_append, List.take_append_drop]
  · simp only [List.filter_reverse, List.reverse_reverse]
    rw [← List.filter_append, List.take_append_drop]
  · intro e hke hmem
    have hrw : (((tl.take k).reverse).filter keepFetch).reverse ++
        (tl.drop k).filter keepFetch = tl.filter keepFetch := by
      simp only [List.filter_reverse, List.reverse_reverse]
      rw [← List.filter_append, List.take_append_drop]
    rw [hrw]
    exact List.count_eq_one_of_mem (hnd.filter keepFetch)
      (List.mem_filter.mpr ⟨hmem, hke⟩)

/-- C1 witness: the partition theorem applied to a concrete three-event
timeline with the anchor after the first event. -/
theorem get_room_events_partition_witness :
    ([evText, evMembership, evMedia] : List Event).Nodup ∧
    (∃ back front,
      fetch_room_events
        (pagesOf (([evText, evMembership, evMedia].take 1).reverse)) [] =
          .ok back ∧
      fetch_room_events (pagesOf ([evText, evMembership, evMedia].drop 1)) [] =
        .ok front ∧
      get_room_events [evText, evMembership, evMedia] 1 =
        .ok (back.reverse ++ front) ∧
      back.reverse ++ front = [evText, evMembership, evMedia].filter keepFetch ∧
      (∀ e, keepFetch e = true → e ∈ [evText, evMembership, evMedia] →
        (back.reverse ++ front).count e = 1)) :=
  ⟨by decide, get_room_events_partition [evText, evMembership, evMedia] 1
    (by decide)⟩

/-- C3: every event in the fetched timeline has one of the four retained
types (text family, media, redacted, encrypted media); redacted events of the
source timeline do appear in the fetched sequence; and `send_events` never
posts a redacted event. -/
theorem fetch_filter_types (tl : List Event) (k : Nat) :
    ∃ evs, get_room_events tl k = .ok evs ∧
      (∀ e ∈ evs, claimRetainedType e.ty = true) ∧
      (∀ e ∈ tl, e.ty = .redacted → e ∈ evs) ∧
      (∀ e ∈ send_events_posted evs, e.ty ≠ .redacted) := by
  refine ⟨tl.filter keepFetch, get_room_events_eq tl k, ?_, ?_, ?_⟩
  · intro e he
    have := (List.mem_filter.mp he).2
    rwa [keepFetch_eq_claimRetained] at this
  · intro e he hty
    refine List.mem_filter.mpr ⟨he, ?_⟩
    rw [keepFetch_eq_claimRetained, hty]
    rfl
  · intro e he hty
    have hs : keepSend e = true := (List.mem_filter.mp he).2
    rw [keepSend] at hs
    rw [hty] at hs
    simp [isRoomMessageText, isRoomMessageMedia, isRoomEncryptedMedia] at hs

/-- C3 witness: the filtering theorem applied to a concrete timeline holding
a redacted event, a membership event and a text message. -/
theorem fetch_filter_types_witness :
    ∃ evs, get_room_events [evRedacted, evMembership, evText] 2 = .ok evs ∧
      (∀ e ∈ evs, claimRetainedType e.ty = true) ∧
      (∀ e ∈ [evRedacted, evMembership, evText], e.ty = .redacted → e ∈ evs) ∧
      (∀ e ∈ send_events_posted evs, e.ty ≠ .redacted) :=
  fetch_filter_types [evRedacted, evMembership, evText] 2

/-- C10: a formatted message that is not a plain text message (a notice or an
emote) passes the fetch filter but not the send filter: it is present in the
fetched timeline yet absent from the events `send_events` posts. -/
theorem formatted_fetched_never_posted (tl : List Event) (k : Nat) (e : Event)
    (he : e ∈ tl) (hfmt : isRoomMessageFormatted e.ty = true)
    (htxt : isRoomMessageText e.ty = false) :
    keepFetch e = true ∧ keepSend e = false ∧
    ∃ evs, get_room_events tl k = .ok evs ∧ e ∈ evs ∧
      e ∉ send_events_posted evs := by
  have hkf : keepFetch e = true := by
    rw [keepFetch, hfmt]
    rfl
  have hks : keepSend e = false := by
    cases hty : e.ty <;>
      simp_all [isRoomMessageFormatted, isRoomMessageText, keepSend,
        isRoomMessageMedia, isRoomEncryptedMedia]
  refine ⟨hkf, hks, tl.filter keepFetch, get_room_events_eq tl k,
    List.mem_filter.mpr ⟨he, hkf⟩, ?_⟩
  intro hmem
  have := (List.mem_filter.mp hmem).2
  rw [hks] at this
  exact Bool.false_ne_true this

/-- C10 witness: a notice message in a one-event timeline is fetched but not
posted. -/
theorem formatted_fetched_never_posted_witness :
    (evNotice ∈ [evNotice] ∧ isRoomMessageFormatted evNotice.ty = true ∧
      isRoomMessageText evNotice.ty = false) ∧
    (keepFetch evNotice = true ∧ keepSend evNotice = false ∧
    ∃ evs, get_room_events [evNotice] 0 = .ok evs ∧ evNotice ∈ evs ∧
      evNotice ∉ send_events_posted evs) :=
  ⟨⟨by decide, by decide, by decide⟩,
    formatted_fetched_never_posted [evNotice] 0 evNotice (by decide)
      (by decide) (by decide)⟩

/-- C2: under the catalog invariant, resolving a destination room for a
display name succeeds, and resolving the same name again in the resulting
state returns the very same room, leaves the state unchanged, and creates no
second room — at most one room is created per distinct name per run. -/
theorem resolve_room_idempotent (st : CatalogState) (t v : String)
    (id1 id2 : Nat) (name : String) (hInv : CatalogInv st) :
    ∃ r st1 c1,
      resolve_room st t v id1 name = (some r, st1, c1) ∧
      resolve_room st1 t v id2 name = (some r, st1, false) := by
  by_cases hm : name ∈ st.room_names
  · have hex : (st.rooms.find? (fun r => r.display_name = name)).isSome =
        true := by
      rw [List.find?_isSome]
      rw [CatalogInv] at hInv
      rw [hInv] at hm
      obtain ⟨r, hr, hrn⟩ := List.mem_map.mp hm
      exact ⟨r, hr, by simp [hrn]⟩
    obtain ⟨r, hr⟩ := Option.isSome_iff_exists.mp hex
    refine ⟨r, st, false, ?_, ?_⟩ <;>
      simp [resolve_room, get_room, hm, hr]
  · have hm1 : name ∈ st.room_names ++ [name] := by simp
    have hex : ((st.rooms ++ [(⟨id1, name, t, v⟩ : Room)]).find?
        (fun r => r.display_name = name)).isSome = true := by
      rw [List.find?_isSome]
      exact ⟨(⟨id1, name, t, v⟩ : Room), by simp, by simp⟩
    obtain ⟨r, hr⟩ := Option.isSome_iff_exists.mp hex
    refine ⟨r, ⟨st.rooms ++ [(⟨id1, name, t, v⟩ : Room)],
      st.room_names ++ [name]⟩, true, ?_, ?_⟩ <;>
      simp [resolve_room, create_room, get_room, hm, hm1, hr]

/-- C2 witness: the idempotence theorem applied to a concrete catalog holding
one room, resolving a new name twice. -/
theorem resolve_room_idempotent_witness :
    CatalogInv ⟨[⟨10, "general", "old topic", "9"⟩], ["general"]⟩ ∧
    (∃ r st1 c1,
      resolve_room ⟨[⟨10, "general", "old topic", "9"⟩], ["general"]⟩
        "notes topic" "9" 11 "notes" = (some r, st1, c1) ∧
      resolve_room st1 "notes topic" "9" 12 "notes" = (some r, st1, false)) :=
  ⟨rfl,
    resolve_room_idempotent ⟨[⟨10, "general", "old topic", "9"⟩], ["general"]⟩
      "notes topic" "9" 11 12 "notes" rfl⟩

/-- C6: for a successfully downloaded media payload, `post_event` uploads the
payload with `filesize` equal to the downloaded byte length and records that
same length in the posted message's `info.size` field. -/
theorem post_event_size_fidelity (r : DownloadResponse) (uri : String)
    (e : Event)
    (h : isRoomMessageMedia e.ty = true ∨ isRoomEncryptedMedia e.ty = true) :
    ∃ p, post_event (.ok r) uri e = .ok p ∧
      p.uploads = [⟨r.body, r.content_type, r.filename, r.body.length⟩] ∧
      (∀ u ∈ p.uploads, u.filesize = r.body.length) ∧
      p.content.size = some r.body.length := by
  have hb : (isRoomMessageMedia e.ty || isRoomEncryptedMedia e.ty) = true := by
    rcases h with h | h <;> simp [h]
  refine ⟨⟨[⟨r.body, r.content_type, r.filename, r.body.length⟩],
    ⟨r.filename, some r.body.length, some r.content_type, some uri,
      e.msgtype⟩⟩, ?_, rfl, ?_, rfl⟩
  · rw [post_event]
    simp only [hb, if_true]
    rfl
  · intro u hu
    simp only [List.mem_singleton] at hu
    rw [hu]

/-- C6 witness: the size-fidelity theorem applied to a media event whose
download returns a five-byte payload. -/
theorem post_event_size_fidelity_witness :
    (isRoomMessageMedia evMedia.ty = true ∨
      isRoomEncryptedMedia evMedia.ty = true) ∧
    (∃ p, post_event (.ok ⟨[9, 8, 7, 6, 5], "img.png", "image/png"⟩)
        "mxc://new/xyz" evMedia = .ok p ∧
      p.uploads = [⟨[9, 8, 7, 6, 5], "image/png", "img.png", 5⟩] ∧
      (∀ u ∈ p.uploads, u.filesize = 5) ∧
      p.content.size = some 5) :=
  ⟨Or.inl (by decide),
    post_event_size_fidelity ⟨[9, 8, 7, 6, 5], "img.png", "image/png"⟩
      "mxc://new/xyz" evMedia (Or.inl (by decide))⟩

/-- C4 (code behavior at the failing input): when the server answers the
second page request with a `RoomMessagesError`, `fetch_room_events` raises
`AttributeError` (the unconditional `resp.chunk` access on the error
response) and the events gathered so far are lost, instead of the loop
terminating with the gathered events; by contrast, an empty page does
terminate the loop normally. -/
theorem fetch_room_events_error_raises :
    fetch_room_events [.page [evText] "t1", .error "server error"] [] =
      .error .attributeError ∧
    fetch_room_events [.page [evText] "t1", .page [] "t2"] [] =
      .ok [evText] := by
  constructor <;> rfl

/-- C5 (code behavior at the failing input): when the media download fails,
`download_mxc` returns the bytes object `b''`, and `post_event`'s subsequent
`.body` attribute access raises `AttributeError` — no upload and no posting
of a zero-byte attachment happens. -/
theorem post_event_failed_download_raises :
    post_event .failed "mxc://new/xyz" evMedia = .error .attributeError := by
  rfl

/-- C7 (code behavior at the failing input): constructing two sessions in one
process yields the same device identifier for both, because
`self.device_cnt += 1` writes an instance attribute and leaves the class
attribute `Matrix_Server.device_cnt` at its initial value 1. -/
theorem device_id_collision :
    (msInit 1).1 = "migrate_server_1" ∧
    (msInit 1).2 = 1 ∧
    (msInit (msInit 1).2).1 = "migrate_server_1" := by
  refine ⟨rfl, rfl, rfl⟩

/-- C8 (code behavior at the failing input): on a `nio.SyncError` the sync
error handler raises `TypeError` (the source calls the `logging` module
object as a function), instead of logging the error and continuing. -/
theorem sync_error_raises :
    sync_handle (.error "sync failed") = .error .moduleNotCallable ∧
    sync_handle (.ok "tok") = .ok () := by
  constructor <;> rfl

/-- C9 (code behavior at the failing input): the shutdown tail of `main`
performs no logout request for either session — the `logout()` coroutines are
created without `await` and discarded — although awaiting a logout coroutine
would issue exactly one logout request. -/
theorem shutdown_no_logout :
    main_shutdown_actions "new.example.org" "old.example.org" = [] ∧
    logout_run "new.example.org" = [.logoutRequest "new.example.org"] ∧
    logout_run "old.example.org" = [.logoutRequest "old.example.org"] := by
  refine ⟨rfl, rfl, rfl⟩

end MigrateServer
